import Mathlib

/-!
Verification of the `elastic` repository's ip-mapping serializer
(src/types/src/ip/mapping.rs, src/types/src/lib.rs) and of the
transport-layer URL assembly functions (src/hyper/src/api/cat/indices.rs,
src/hyper/src/api/indices/stats.rs, src/hyper/src/api/indices/exists_type.rs).

The serializer is embedded over an abstract struct writer (mirroring serde's
`Serializer`/`SerializeStruct` interface), so that both the emitted JSON
object and the propagation of writer errors can be stated. URL builders are
embedded as the literal `push_str` chains of the source, and the
`String::with_capacity` arguments as the corresponding arithmetic.
-/

namespace Elastic

/-- An IPv4 address, modelling `std::net::Ipv4Addr` as four octets. -/
structure Ipv4Addr where
  a : Nat
  b : Nat
  c : Nat
  d : Nat
deriving DecidableEq

/-- The canonical dotted-decimal form in which serde serializes an `Ipv4Addr`. -/
def Ipv4Addr.display (ip : Ipv4Addr) : String :=
  toString ip.a ++ "." ++ toString ip.b ++ "." ++ toString ip.c ++ "." ++ toString ip.d

/-- JSON scalar values the ip mapping serializer can emit: strings,
numbers (the `f32` boost, modelled as a rational) and booleans. -/
inductive Value where
  | str : String → Value
  | num : ℚ → Value
  | bool : Bool → Value
deriving DecidableEq

/-- The `IpMapping` trait: five knob accessors, each with a built-in default
implementation returning `None`. Fields are listed in the trait's declaration
order (boost, doc_values, index, null_value, store); an implementer overrides
a field by supplying it and inherits the `none` default for the rest. -/
structure IpMapping where
  boost : Option ℚ := none
  doc_values : Option Bool := none
  index : Option Bool := none
  null_value : Option Ipv4Addr := none
  store : Option Bool := none
deriving DecidableEq

/-- `FieldMapping::data_type` for the `IpFormat` impl: the constant `"ip"`. -/
def data_type : String := "ip"

/-- `DefaultIpMapping`: `impl IpMapping for DefaultIpMapping {}` overrides
nothing, so every accessor keeps its default. -/
def DefaultIpMapping : IpMapping := {}

/-- An abstract serde struct writer: `serialize_struct` opens the struct,
`serializeField` appends one key/value pair, `endStruct` closes it. Each
operation may fail with an error of type `E`. -/
structure Writer (E St A : Type) where
  serializeStruct : String → Nat → Except E St
  serializeField : St → String → Value → Except E St
  endStruct : St → Except E A

/-- The `ser_field!` macro of src/types/src/lib.rs: when the accessor
returned `Some f` the key is written with value `f`, otherwise nothing is
emitted for that key. -/
def ser_field {E St A : Type} (w : Writer E St A) (st : St) (key : String) :
    Option Value → Except E St
  | none => .ok st
  | some v => w.serializeField st key v

/-- `Serialize for Field<T, IpFormat>`: the exact statement sequence of the
source, with each `try!` expanded to an early `.error` return. The `"type"`
key is written first, then the five `ser_field!` invocations in source order
(boost, doc_values, index, store, null_value), then `state.end()`. -/
def serializeIpField {E St A : Type} (w : Writer E St A) (m : IpMapping) : Except E A :=
  match w.serializeStruct "mapping" 6 with
  | .error e => .error e
  | .ok st =>
  match w.serializeField st "type" (Value.str data_type) with
  | .error e => .error e
  | .ok st =>
  match ser_field w st "boost" (m.boost.map Value.num) with
  | .error e => .error e
  | .ok st =>
  match ser_field w st "doc_values" (m.doc_values.map Value.bool) with
  | .error e => .error e
  | .ok st =>
  match ser_field w st "index" (m.index.map Value.bool) with
  | .error e => .error e
  | .ok st =>
  match ser_field w st "store" (m.store.map Value.bool) with
  | .error e => .error e
  | .ok st =>
  match ser_field w st "null_value" (m.null_value.map fun ip => Value.str ip.display) with
  | .error e => .error e
  | .ok st =>
  w.endStruct st

/-- The writer corresponding to a JSON object builder: it records the
key/value pairs in emission order and never fails (error type `Empty`). -/
def jsonWriter : Writer Empty (List (String × Value)) (List (String × Value)) where
  serializeStruct := fun _ _ => .ok []
  serializeField := fun st k v => .ok (st ++ [(k, v)])
  endStruct := fun st => .ok st

/-- The ordered JSON object (as a key/value list) emitted for
`Field<M, IpFormat>` under mapping `m`. -/
def ipFieldEntries (m : IpMapping) : List (String × Value) :=
  match serializeIpField jsonWriter m with
  | .ok l => l
  | .error e => e.elim

/-- The entries contributed by one optional knob: nothing when unset, a
single pair when set. -/
def optEntry (key : String) : Option Value → List (String × Value)
  | none => []
  | some v => [(key, v)]

theorem ipFieldEntries_eq (m : IpMapping) :
    ipFieldEntries m =
      ("type", Value.str data_type) ::
        (optEntry "boost" (m.boost.map Value.num) ++
         optEntry "doc_values" (m.doc_values.map Value.bool) ++
         optEntry "index" (m.index.map Value.bool) ++
         optEntry "store" (m.store.map Value.bool) ++
         optEntry "null_value" (m.null_value.map fun ip => Value.str ip.display)) := by
  rcases m with ⟨b, d, i, nv, s⟩
  cases b <;> cases d <;> cases i <;> cases nv <;> cases s <;> rfl

/-- C1: for every mapping `m` implementing `IpMapping`, the serialized
object's first key is `"type"`, always present, with value the contract's
`data_type()` discriminator, which for the ip type is the constant non-empty
string `"ip"`. -/
theorem ip_serialize_type_key_first (m : IpMapping) :
    (ipFieldEntries m).head? = some ("type", Value.str data_type) ∧
      data_type = "ip" ∧ data_type ≠ "" := by
  rw [ipFieldEntries_eq]
  exact ⟨rfl, rfl, by decide⟩

/-- C2: for every mapping `m` and each of the five knobs, the serialized
output contains the knob's key iff the accessor returns `some`, and the value
bound to the key is exactly the accessor's value serialized by its type's
rule: float as JSON number, bool as JSON boolean, address as its canonical
dotted form. -/
theorem ip_serialize_knob_iff_set (m : IpMapping) :
    (("boost" ∈ (ipFieldEntries m).map Prod.fst ↔ m.boost.isSome = true) ∧
      (ipFieldEntries m).lookup "boost" = m.boost.map Value.num) ∧
    (("doc_values" ∈ (ipFieldEntries m).map Prod.fst ↔ m.doc_values.isSome = true) ∧
      (ipFieldEntries m).lookup "doc_values" = m.doc_values.map Value.bool) ∧
    (("index" ∈ (ipFieldEntries m).map Prod.fst ↔ m.index.isSome = true) ∧
      (ipFieldEntries m).lookup "index" = m.index.map Value.bool) ∧
    (("store" ∈ (ipFieldEntries m).map Prod.fst ↔ m.store.isSome = true) ∧
      (ipFieldEntries m).lookup "store" = m.store.map Value.bool) ∧
    (("null_value" ∈ (ipFieldEntries m).map Prod.fst ↔ m.null_value.isSome = true) ∧
      (ipFieldEntries m).lookup "null_value" =
        m.null_value.map fun ip => Value.str ip.display) := by
  rcases m with ⟨b, d, i, nv, s⟩
  cases b <;> cases d <;> cases i <;> cases nv <;> cases s <;>
    exact ⟨⟨by simp [ipFieldEntries_eq, optEntry, data_type], rfl⟩,
           ⟨by simp [ipFieldEntries_eq, optEntry, data_type], rfl⟩,
           ⟨by simp [ipFieldEntries_eq, optEntry, data_type], rfl⟩,
           ⟨by simp [ipFieldEntries_eq, optEntry, data_type], rfl⟩,
           ⟨by simp [ipFieldEntries_eq, optEntry, data_type], rfl⟩⟩

/-- A mapping setting both `store` and `null_value`, used to decide the knob
emission order. -/
def StoreNullMapping : IpMapping :=
  { store := some true, null_value := some ⟨127, 0, 0, 1⟩ }

/-- C3 counterexample: the claim says set knobs are emitted in the trait's
declaration order boost, doc_values, index, null_value, store, so a mapping
with `store` and `null_value` both set would serialize with `"null_value"`
before `"store"`. The code emits `"store"` before `"null_value"`, refuting
the claim at this input. -/
theorem ip_knob_order_claim_false :
    ¬ ipFieldEntries StoreNullMapping =
        [("type", Value.str "ip"),
         ("null_value", Value.str (Ipv4Addr.display ⟨127, 0, 0, 1⟩)),
         ("store", Value.bool true)] := by
  decide

/-- C3 amended: set knobs are emitted in the serializer's fixed source order
boost, doc_values, index, store, null_value — `store` before `null_value`,
which differs from the trait's accessor declaration order. -/
theorem ip_serialize_knob_order (m : IpMapping) :
    ipFieldEntries m =
      ("type", Value.str data_type) ::
        (optEntry "boost" (m.boost.map Value.num) ++
         optEntry "doc_values" (m.doc_values.map Value.bool) ++
         optEntry "index" (m.index.map Value.bool) ++
         optEntry "store" (m.store.map Value.bool) ++
         optEntry "null_value" (m.null_value.map fun ip => Value.str ip.display)) :=
  ipFieldEntries_eq m

/-- C4: the serialized object never contains a key other than `"type"`,
`"boost"`, `"doc_values"`, `"index"`, `"store"` and `"null_value"`, for any
mapping. -/
theorem ip_serialize_no_other_keys (m : IpMapping) :
    (ipFieldEntries m).all
      (fun p => p.1 == "type" || p.1 == "boost" || p.1 == "doc_values" ||
        p.1 == "index" || p.1 == "store" || p.1 == "null_value") = true := by
  rcases m with ⟨b, d, i, nv, s⟩
  cases b <;> cases d <;> cases i <;> cases nv <;> cases s <;> rfl

/-- The doc example's `MyIpMapping`: overrides only `boost` to return
`Some(1.5)`, inheriting every other default. -/
def MyIpMapping : IpMapping := { boost := some (1.5 : ℚ) }

/-- C5: a mapping overriding only `boost()` to `Some(1.5)` serializes to
exactly the object with keys `"type": "ip"` then `"boost": 1.5`, with
`"type"` first. -/
theorem my_ip_mapping_serializes_boost :
    ipFieldEntries MyIpMapping =
        [("type", Value.str "ip"), ("boost", Value.num 1.5)] ∧
      (ipFieldEntries MyIpMapping).head? = some ("type", Value.str "ip") :=
  ⟨rfl, rfl⟩

/-- C6: every knob accessor defaults to `none`; `DefaultIpMapping`, which
overrides nothing, serializes to exactly the object containing only
`"type": "ip"`; and a mapping overriding only `boost` inherits the `none`
default for every other accessor. -/
theorem ip_mapping_defaults_none :
    DefaultIpMapping.boost = none ∧ DefaultIpMapping.doc_values = none ∧
    DefaultIpMapping.index = none ∧ DefaultIpMapping.null_value = none ∧
    DefaultIpMapping.store = none ∧
    ipFieldEntries DefaultIpMapping = [("type", Value.str "ip")] ∧
    ∀ q : ℚ, ({ boost := some q } : IpMapping).doc_values = none ∧
      ({ boost := some q } : IpMapping).index = none ∧
      ({ boost := some q } : IpMapping).null_value = none ∧
      ({ boost := some q } : IpMapping).store = none :=
  ⟨rfl, rfl, rfl, rfl, rfl, rfl, fun _ => ⟨rfl, rfl, rfl, rfl⟩⟩

/-- C7: serialization is deterministic. The output of `serializeIpField`
depends only on the writer behaviour and the values of the five pure
accessors: two mappings whose accessors agree serialize identically under
any writer, so in particular two serializations of the same mapping with the
same writer behaviour produce identical output. -/
theorem ip_serialize_deterministic {E St A : Type} (w : Writer E St A)
    (m₁ m₂ : IpMapping)
    (hb : m₁.boost = m₂.boost) (hd : m₁.doc_values = m₂.doc_values)
    (hi : m₁.index = m₂.index) (hn : m₁.null_value = m₂.null_value)
    (hs : m₁.store = m₂.store) :
    serializeIpField w m₁ = serializeIpField w m₂ := by
  rcases m₁ with ⟨b₁, d₁, i₁, n₁, s₁⟩
  rcases m₂ with ⟨b₂, d₂, i₂, n₂, s₂⟩
  cases hb; cases hd; cases hi; cases hn; cases hs
  rfl

/-- Witness for C7 at concrete inputs: the JSON writer and the default
mapping, every accessor-equality hypothesis discharged by reflexivity. -/
theorem ip_serialize_deterministic_witness :
    DefaultIpMapping.boost = DefaultIpMapping.boost ∧
      serializeIpField jsonWriter DefaultIpMapping =
        serializeIpField jsonWriter DefaultIpMapping :=
  ⟨rfl, ip_serialize_deterministic jsonWriter DefaultIpMapping DefaultIpMapping
    rfl rfl rfl rfl rfl⟩

/-- The number of knob accessors of `m` returning a set value. -/
def knobCount (m : IpMapping) : Nat :=
  (if m.boost.isSome then 1 else 0) + (if m.doc_values.isSome then 1 else 0) +
    (if m.index.isSome then 1 else 0) + (if m.store.isSome then 1 else 0) +
    (if m.null_value.isSome then 1 else 0)

/-- The number of writer operations `serializeIpField` performs for `m`:
`serialize_struct`, the `"type"` field, one field per set knob, and `end`. -/
def opCount (m : IpMapping) : Nat := 3 + knobCount m

/-- A writer whose operations are numbered from 0 in invocation order and
whose `n`-th operation fails with error `e`, every other operation
succeeding; its state counts the operations performed so far. -/
def failAt (E : Type) (e : E) (n : Nat) : Writer E Nat Nat where
  serializeStruct := fun _ _ => if n = 0 then .error e else .ok 1
  serializeField := fun st _ _ => if n = st then .error e else .ok (st + 1)
  endStruct := fun st => if n = st then .error e else .ok st

/-- C8: if any writer step (`serialize_struct`, the `"type"` field, a knob
emission, or `end`) fails with error `e`, `serializeIpField` returns exactly
that error, never swallowed; if no step performed for `m` fails, it returns
`Ok`. Stated over the `failAt` writers, which fail at exactly one chosen
operation index with a chosen error. -/
theorem ip_serialize_error_propagation (E : Type) (e : E) (m : IpMapping) (n : Nat) :
    serializeIpField (failAt E e n) m =
      if n < opCount m then .error e else .ok (opCount m - 1) := by
  rcases m with ⟨b, d, i, nv, s⟩
  cases b <;> cases d <;> cases i <;> cases nv <;> cases s <;>
    rcases n with _ | _ | _ | _ | _ | _ | _ | _ | n <;> rfl

/-- Rust's `str::len()`: the UTF-8 byte length of a string. -/
def rustLen (s : String) : Nat := s.utf8ByteSize

theorem rustLen_append (a b : String) : rustLen (a ++ b) = rustLen a + rustLen b := by
  rcases a with ⟨as⟩
  rcases b with ⟨bs⟩
  show String.utf8ByteSize ⟨as ++ bs⟩ = String.utf8ByteSize ⟨as⟩ + String.utf8ByteSize ⟨bs⟩
  simp [String.utf8ByteSize_mk, String.utf8Len_append]

/-- `cat::indices::get`: url built by pushing base, `"/_cat/indices"`, query. -/
def cat_indices_get_url (base url_qry : String) : String :=
  let url_fmtd := ""
  let url_fmtd := url_fmtd ++ base
  let url_fmtd := url_fmtd ++ "/_cat/indices"
  let url_fmtd := url_fmtd ++ url_qry
  url_fmtd

/-- Capacity passed to `String::with_capacity` in `cat::indices::get`. -/
def cat_indices_get_capacity (base url_qry : String) : Nat :=
  rustLen base + 13 + rustLen url_qry

/-- `cat::indices::get_index`: base, `"/_cat/indices/"`, index, query. -/
def cat_indices_get_index_url (base index url_qry : String) : String :=
  let url_fmtd := ""
  let url_fmtd := url_fmtd ++ base
  let url_fmtd := url_fmtd ++ "/_cat/indices/"
  let url_fmtd := url_fmtd ++ index
  let url_fmtd := url_fmtd ++ url_qry
  url_fmtd

/-- Capacity passed to `String::with_capacity` in `cat::indices::get_index`. -/
def cat_indices_get_index_capacity (base index url_qry : String) : Nat :=
  rustLen base + 14 + rustLen index + rustLen url_qry

/-- `indices::exists_type::head_index_type`: base, `"/"`, index, `"/"`,
type, query. -/
def head_index_type_url (base index _type url_qry : String) : String :=
  let url_fmtd := ""
  let url_fmtd := url_fmtd ++ base
  let url_fmtd := url_fmtd ++ "/"
  let url_fmtd := url_fmtd ++ index
  let url_fmtd := url_fmtd ++ "/"
  let url_fmtd := url_fmtd ++ _type
  let url_fmtd := url_fmtd ++ url_qry
  url_fmtd

/-- Capacity in `head_index_type`: `base.len() + 1 + 1 + index.len() +
_type.len() + url_qry.len()`. -/
def head_index_type_capacity (base index _type url_qry : String) : Nat :=
  rustLen base + 1 + 1 + rustLen index + rustLen _type + rustLen url_qry

/-- `indices::stats::get_metric`: base, `"/_stats/"`, metric, query. -/
def stats_get_metric_url (base metric url_qry : String) : String :=
  let url_fmtd := ""
  let url_fmtd := url_fmtd ++ base
  let url_fmtd := url_fmtd ++ "/_stats/"
  let url_fmtd := url_fmtd ++ metric
  let url_fmtd := url_fmtd ++ url_qry
  url_fmtd

/-- Capacity in `stats::get_metric`: `base.len() + 8 + metric.len() +
url_qry.len()`. -/
def stats_get_metric_capacity (base metric url_qry : String) : Nat :=
  rustLen base + 8 + rustLen metric + rustLen url_qry

/-- `indices::stats::get_index`: base, `"/"`, index, `"/_stats"`, query. -/
def stats_get_index_url (base index url_qry : String) : String :=
  let url_fmtd := ""
  let url_fmtd := url_fmtd ++ base
  let url_fmtd := url_fmtd ++ "/"
  let url_fmtd := url_fmtd ++ index
  let url_fmtd := url_fmtd ++ "/_stats"
  let url_fmtd := url_fmtd ++ url_qry
  url_fmtd

/-- Capacity in `stats::get_index`: `base.len() + 1 + 7 + index.len() +
url_qry.len()`. -/
def stats_get_index_capacity (base index url_qry : String) : Nat :=
  rustLen base + 1 + 7 + rustLen index + rustLen url_qry

/-- `indices::stats::get_index_metric`: base, `"/"`, index, `"/_stats/"`,
metric, query. -/
def stats_get_index_metric_url (base index metric url_qry : String) : String :=
  let url_fmtd := ""
  let url_fmtd := url_fmtd ++ base
  let url_fmtd := url_fmtd ++ "/"
  let url_fmtd := url_fmtd ++ index
  let url_fmtd := url_fmtd ++ "/_stats/"
  let url_fmtd := url_fmtd ++ metric
  let url_fmtd := url_fmtd ++ url_qry
  url_fmtd

/-- Capacity in `stats::get_index_metric`: `base.len() + 1 + 8 + index.len()
+ metric.len() + url_qry.len()`. -/
def stats_get_index_metric_capacity (base index metric url_qry : String) : Nat :=
  rustLen base + 1 + 8 + rustLen index + rustLen metric + rustLen url_qry

/-- `indices::stats::get`: base, `"/_stats"`, query. -/
def stats_get_url (base url_qry : String) : String :=
  let url_fmtd := ""
  let url_fmtd := url_fmtd ++ base
  let url_fmtd := url_fmtd ++ "/_stats"
  let url_fmtd := url_fmtd ++ url_qry
  url_fmtd

/-- Capacity in `stats::get`: `base.len() + 7 + url_qry.len()`. -/
def stats_get_capacity (base url_qry : String) : Nat :=
  rustLen base + 7 + rustLen url_qry

/-- C9: the transport functions build their URL by plain concatenation of
their arguments, inserted verbatim: `stats::get_index_metric` requests
`base ++ "/" ++ index ++ "/_stats/" ++ metric ++ query`, `stats::get`
requests `base ++ "/_stats" ++ query`, and `cat::indices::get_index`
requests `base ++ "/_cat/indices/" ++ index ++ query`. -/
theorem url_concat_exact (base index metric url_qry : String) :
    stats_get_index_metric_url base index metric url_qry =
        base ++ "/" ++ index ++ "/_stats/" ++ metric ++ url_qry ∧
      stats_get_url base url_qry = base ++ "/_stats" ++ url_qry ∧
      cat_indices_get_index_url base index url_qry =
        base ++ "/_cat/indices/" ++ index ++ url_qry :=
  ⟨rfl, rfl, rfl⟩

theorem rustLen_lit_slash : rustLen "/" = 1 := rfl

theorem rustLen_lit_stats : rustLen "/_stats" = 7 := rfl

theorem rustLen_lit_stats_slash : rustLen "/_stats/" = 8 := rfl

theorem rustLen_lit_cat : rustLen "/_cat/indices" = 13 := rfl

theorem rustLen_lit_cat_slash : rustLen "/_cat/indices/" = 14 := rfl

theorem rustLen_lit_empty : rustLen "" = 0 := rfl

/-- C10: in every URL-assembly function, the capacity passed to
`String::with_capacity` equals the exact byte length of the fully assembled
URL, for all inputs: each literal length constant matches the total length
of the literals actually appended. -/
theorem url_capacity_exact (base index _type metric url_qry : String) :
    cat_indices_get_capacity base url_qry =
        rustLen (cat_indices_get_url base url_qry) ∧
      cat_indices_get_index_capacity base index url_qry =
        rustLen (cat_indices_get_index_url base index url_qry) ∧
      head_index_type_capacity base index _type url_qry =
        rustLen (head_index_type_url base index _type url_qry) ∧
      stats_get_metric_capacity base metric url_qry =
        rustLen (stats_get_metric_url base metric url_qry) ∧
      stats_get_index_capacity base index url_qry =
        rustLen (stats_get_index_url base index url_qry) ∧
      stats_get_index_metric_capacity base index metric url_qry =
        rustLen (stats_get_index_metric_url base index metric url_qry) ∧
      stats_get_capacity base url_qry = rustLen (stats_get_url base url_qry) := by
  refine ⟨?_, ?_, ?_, ?_, ?_, ?_, ?_⟩ <;>
    simp [cat_indices_get_capacity, cat_indices_get_url,
      cat_indices_get_index_capacity, cat_indices_get_index_url,
      head_index_type_capacity, head_index_type_url,
      stats_get_metric_capacity, stats_get_metric_url,
      stats_get_index_capacity, stats_get_index_url,
      stats_get_index_metric_capacity, stats_get_index_metric_url,
      stats_get_capacity, stats_get_url,
      rustLen_append, rustLen_lit_slash, rustLen_lit_stats,
      rustLen_lit_stats_slash, rustLen_lit_cat, rustLen_lit_cat_slash,
      rustLen_lit_empty] <;>
    omega

end Elastic
